import Mathlib

/-!
Shallow embedding of the vendor invoice module of `app.py`
(`PRICE_MAP`, `VendorAppWindow.add_update_line`, `refresh_invoice`,
`load_selected`, `clear_form`, `submit_all`), together with theorems that
check the specification's claims about this module.

Modelling conventions: Python strings are `String`; `str.strip()` is
`pyStrip` (the inputs involved contain only ASCII whitespace);
Python ints are `Int`; a raised exception is an `Option PyExc` (or an
error constructor of a result type) returned next to the new state; the
Google-Sheets worksheet is a sink parameter recording the rows handed to
`append_row`.
-/

/-- One invoice line, mirroring the dict built in
`VendorAppWindow.add_update_line` (keys `timestamp, vendor, notes, pan,
gst, version, language, qty, unit_price, amount, pan_img, gst_img`). -/
structure Entry where
  timestamp : String
  vendor : String
  notes : String
  pan : String
  gst : String
  version : String
  language : String
  qty : Int
  unit_price : Int
  amount : Int
  pan_img : String
  gst_img : String
deriving Repr, DecidableEq

/-- The module-level `PRICE_MAP` dict of `app.py`, as an association list
in source order. -/
def PRICE_MAP : List (String × Int) :=
  [("Actilearn 1.0", 250), ("Actilearn Junior", 180), ("Papertronics", 220),
   ("ISEE", 300), ("Financial Literacy", 200), ("Plastic Smart", 150),
   ("ClimateQuest", 275), ("Chemagica", 230)]

/-- The price lookup performed in `add_update_line`:
`PRICE_MAP.get(version, 0)` — the configured price for a known version,
and the call-site default `0` for any other string. -/
def priceGet (version : String) : Int :=
  (PRICE_MAP.lookup version).getD 0

/-- Python's `str.strip()`: drop leading and trailing whitespace.  (The
inputs involved contain only ASCII whitespace, for which
`Char.isWhitespace` agrees with Python.) -/
def pyStrip (s : String) : String :=
  ⟨((s.toList.dropWhile Char.isWhitespace).reverse.dropWhile
      Char.isWhitespace).reverse⟩

/-- Value of a list of decimal digit characters, most significant first. -/
def digitsVal (ds : List Char) : Nat :=
  ds.foldl (fun acc c => acc * 10 + (c.toNat - '0'.toNat)) 0

/-- Python's `int(s)` on a text field: surrounding whitespace is ignored,
then an optional sign followed by one or more decimal digits; anything
else raises `ValueError`, modelled as `none`.  (Python additionally
accepts underscore digit grouping and non-ASCII digits; no input in this
development uses either.) -/
def pyIntParse (s : String) : Option Int :=
  match (pyStrip s).toList with
  | [] => none
  | c :: rest =>
    if c = '-' then
      if !rest.isEmpty && rest.all Char.isDigit then
        some (-(digitsVal rest : Int))
      else none
    else if c = '+' then
      if !rest.isEmpty && rest.all Char.isDigit then
        some (digitsVal rest : Int)
      else none
    else
      if (c :: rest).all Char.isDigit then
        some (digitsVal (c :: rest) : Int)
      else none

/-- A raised Python exception; only `AttributeError` (with the missing
attribute's name) occurs in the embedded methods. -/
inductive PyExc where
  | attributeError (attr : String)
deriving Repr, DecidableEq

/-- `os.path.basename`, as used on the saved image paths: the final
path component. -/
def basename (p : String) : String :=
  (p.splitOn "/").getLastD p

/-- The state of a `VendorAppWindow`: the invoice ledger
(`invoice_items`), the selection marker, the form input variables, the
saved-image paths, and the total label.  `__init__`/`create_ui` assign
every attribute modelled here; they never assign `status_var`, and the
class defines no `toggle_submit` method — both facts surface as
`AttributeError`s in the methods below. -/
structure WinState where
  invoice_items : List Entry
  selected_index : Option Nat
  vendor_var : String
  notes_txt : String
  pan_var : String
  gst_var : String
  version_var : String
  lang_var : String
  qty_var : String
  pan_img_var : String
  gst_img_var : String
  pan_img_path : String
  gst_img_path : String
  total_var : String
deriving Repr, DecidableEq

/-- The state right after `VendorAppWindow.__init__`/`create_ui`: empty
ledger, no selection, empty form, total label `"Total: 0"`.
(`pan_img_path`/`gst_img_path` start absent in the source and are read
only through `getattr(self, ..., '')`, so the empty string is a faithful
initial value.) -/
def initState : WinState :=
  { invoice_items := [], selected_index := none, vendor_var := "",
    notes_txt := "", pan_var := "", gst_var := "", version_var := "",
    lang_var := "", qty_var := "", pan_img_var := "", gst_img_var := "",
    pan_img_path := "", gst_img_path := "", total_var := "Total: 0" }

/-- The running-total loop of `refresh_invoice`:
`total = 0; for it in self.invoice_items: total += it['amount']`. -/
def invoice_total (items : List Entry) : Int :=
  items.foldl (fun t it => t + it.amount) 0

/-- `VendorAppWindow.refresh_invoice`: repopulates the preview list box
(display only, not modelled), sets `total_var` to the running total, and
then calls `self.toggle_submit()`.  The class defines no `toggle_submit`
method and never assigns an attribute of that name, so this lookup
raises `AttributeError` after the total label has been updated. -/
def refresh_invoice (s : WinState) : WinState × Option PyExc :=
  ({ s with total_var := "Total: " ++ toString (invoice_total s.invoice_items) },
   some (.attributeError "toggle_submit"))

/-- `VendorAppWindow.clear_form`: blanks the form variables (keeping the
vendor name when `keep_vendor`), resets the image paths and the
selection, and then executes `self.status_var.set("Ready")`; no code
path ever assigns `self.status_var`, so this raises `AttributeError`. -/
def clear_form (keep_vendor : Bool) (s : WinState) : WinState × Option PyExc :=
  ({ s with
      vendor_var := if keep_vendor then s.vendor_var else "",
      notes_txt := "", pan_var := "", gst_var := "", version_var := "",
      lang_var := "", qty_var := "", pan_img_var := "", gst_img_var := "",
      pan_img_path := "", gst_img_path := "", selected_index := none },
   some (.attributeError "status_var"))

/-- `VendorAppWindow.load_selected`: with no selection it returns at
once; with a selected (hence in-range) index it copies that entry's
fields into the form, records `selected_index`, and then executes
`self.status_var.set("Editing line")`, which raises `AttributeError`
because `status_var` is never created. -/
def load_selected (idx : Nat) (s : WinState) : WinState × Option PyExc :=
  if h : idx < s.invoice_items.length then
    let it := s.invoice_items.get ⟨idx, h⟩
    ({ s with
        selected_index := some idx,
        vendor_var := it.vendor, notes_txt := it.notes, pan_var := it.pan,
        gst_var := it.gst, version_var := it.version, lang_var := it.language,
        qty_var := toString it.qty,
        pan_img_var := basename it.pan_img, gst_img_var := basename it.gst_img,
        pan_img_path := it.pan_img, gst_img_path := it.gst_img },
     some (.attributeError "status_var"))
  else (s, none)

/-- Outcome of `VendorAppWindow.add_update_line`. -/
inductive AddResult where
  /-- `messagebox.showwarning("Missing Data", "All fields except notes are required.")`. -/
  | missingData
  /-- `messagebox.showwarning("Invalid", "Quantity must be whole number.")`. -/
  | invalidQty
  /-- The entry was appended and the total label updated, after which an
  uncaught exception escaped the handler. -/
  | addedThenError (exc : PyExc)
  /-- The entry was appended and the handler ran to completion. -/
  | added
deriving Repr, DecidableEq

/-- `VendorAppWindow.add_update_line`: strips the form fields, rejects
when a required field is empty, parses the quantity with `int(...)`
(rejecting on `ValueError`), resolves the unit price via
`PRICE_MAP.get(version, 0)`, builds the entry dict, appends it to
`self.invoice_items`, and calls `refresh_invoice` then
`clear_form(keep_vendor=True)`; an exception raised by either aborts the
handler (`refresh_invoice` always raises, so `clear_form` is never
reached).  `now` stands for `datetime.datetime.now().isoformat()`.
`selected_index` is never consulted: the method always appends. -/
def add_update_line (now : String) (s : WinState) : AddResult × WinState :=
  let vendor := pyStrip s.vendor_var
  let notes := pyStrip s.notes_txt
  let pan := pyStrip s.pan_var
  let gst := pyStrip s.gst_var
  let version := pyStrip s.version_var
  let lang := pyStrip s.lang_var
  let qty := pyStrip s.qty_var
  let pan_img := s.pan_img_path
  let gst_img := s.gst_img_path
  if vendor.isEmpty || pan.isEmpty || gst.isEmpty || version.isEmpty ||
      lang.isEmpty || qty.isEmpty then
    (.missingData, s)
  else
    match pyIntParse qty with
    | none => (.invalidQty, s)
    | some qty_int =>
      let unit_price := priceGet version
      let amount := qty_int * unit_price
      let entry : Entry :=
        { timestamp := now, vendor := vendor, notes := notes, pan := pan,
          gst := gst, version := version, language := lang, qty := qty_int,
          unit_price := unit_price, amount := amount, pan_img := pan_img,
          gst_img := gst_img }
      let s1 := { s with invoice_items := s.invoice_items ++ [entry] }
      match refresh_invoice s1 with
      | (s2, some exc) => (.addedThenError exc, s2)
      | (s2, none) =>
        match clear_form true s2 with
        | (s3, some exc) => (.addedThenError exc, s3)
        | (s3, none) => (.added, s3)

/-- One cell of a spreadsheet row: `append_row` receives a Python list
mixing strings and ints. -/
inductive Cell where
  | str (v : String)
  | int (v : Int)
deriving Repr, DecidableEq

/-- The row list handed to `ws_vendor.append_row` for one entry, in the
exact source order. -/
def row_of (it : Entry) : List Cell :=
  [.str it.timestamp, .str it.vendor, .str it.notes, .str it.pan,
   .str it.gst, .str it.version, .str it.language, .int it.qty,
   .int it.unit_price, .int it.amount, .str (basename it.pan_img),
   .str (basename it.gst_img)]

/-- The `for it in self.invoice_items: ws_vendor.append_row([...])` loop.
`sink i` is the behaviour of the i-th `append_row` call (`none` =
returns normally, `some reason` = raises).  Returns the rows handed to
the sink, in call order — the raising call is still issued with its row —
and the exception that aborted the loop, if any. -/
def append_rows (sink : Nat → Option String) :
    List Entry → Nat → List (List Cell) → List (List Cell) × Option String
  | [], _, calls => (calls, none)
  | it :: rest, i, calls =>
    match sink i with
    | some reason => (calls ++ [row_of it], some reason)
    | none => append_rows sink rest (i + 1) (calls ++ [row_of it])

/-- Outcome of `VendorAppWindow.submit_all`. -/
inductive SubmitResult where
  /-- `messagebox.showinfo("Empty", "No invoice lines to submit.")`. -/
  | emptyInfo
  /-- `messagebox.showerror("Sheets Error", ...)`: worksheet not connected. -/
  | sheetsError
  /-- `messagebox.showinfo("Success", ...)` was shown and the ledger
  cleared, then the `except` branch showed
  `messagebox.showerror("Submit Error", ...)` for the exception raised
  inside the `try` (by `refresh_invoice`'s `toggle_submit` lookup). -/
  | successThenError (exc : PyExc)
  /-- The whole `try` body ran without an exception. -/
  | success
  /-- `messagebox.showerror("Submit Error", f"Could not submit: ...")`:
  an `append_row` call raised; only the exception text is shown. -/
  | submitError (reason : String)
deriving Repr, DecidableEq

/-- Whether a `submit_all` outcome displays a `messagebox.showerror`
dialog (as opposed to info boxes only). -/
def shows_error_box : SubmitResult → Bool
  | .emptyInfo => false
  | .sheetsError => true
  | .successThenError _ => true
  | .success => false
  | .submitError _ => true

/-- Modelled from the spec: the `completedCount` field of
`SubmissionError::PartialFailure{completedCount, failureReason}`, read
off a `submit_all` outcome.  The source's failure branch shows only
`f"Could not submit: {e}"` and no outcome constructor carries a count of
completed rows, so every outcome reports `none`. -/
def reported_completed_count : SubmitResult → Option Nat
  | .emptyInfo => none
  | .sheetsError => none
  | .successThenError _ => none
  | .success => none
  | .submitError _ => none

/-- `VendorAppWindow.submit_all`: returns at once on an empty ledger or
a missing worksheet; otherwise appends each entry's row in order inside
a `try`, and on success shows the info box, empties `invoice_items` and
calls `refresh_invoice` (whose `toggle_submit` `AttributeError` is then
caught by the same `except` and shown as a "Submit Error").
`ws_connected` models whether the module-level `ws_vendor` is non-None.
Also returns the rows handed to the sink. -/
def submit_all (ws_connected : Bool) (sink : Nat → Option String)
    (s : WinState) : SubmitResult × WinState × List (List Cell) :=
  if s.invoice_items.isEmpty then
    (.emptyInfo, s, [])
  else if !ws_connected then
    (.sheetsError, s, [])
  else
    match append_rows sink s.invoice_items 0 [] with
    | (calls, some reason) => (.submitError reason, s, calls)
    | (calls, none) =>
      let s1 := { s with invoice_items := [] }
      match refresh_invoice s1 with
      | (s2, some exc) => (.successThenError exc, s2, calls)
      | (s2, none) => (.success, s2, calls)

/-- The form state of the scenario from the specification: vendor
`"Acme"`, PAN `"PAN1"`, GST `"GST1"`, version `"ISEE"`, language
`"English"`, quantity text `"3"`. -/
def acmeState : WinState :=
  { initState with
    vendor_var := "Acme", pan_var := "PAN1", gst_var := "GST1",
    version_var := "ISEE", lang_var := "English", qty_var := "3" }

/-- The condition of `add_update_line`'s first guard,
`not (vendor and pan and gst and version and lang and qty)`: some
required field is empty after stripping. -/
def requiredMissing (s : WinState) : Bool :=
  (pyStrip s.vendor_var).isEmpty || (pyStrip s.pan_var).isEmpty ||
    (pyStrip s.gst_var).isEmpty || (pyStrip s.version_var).isEmpty ||
    (pyStrip s.lang_var).isEmpty || (pyStrip s.qty_var).isEmpty

/-- The entry dict `add_update_line` builds from state `s` once
validation passed with parsed quantity `qn`. -/
def mkEntry (now : String) (s : WinState) (qn : Int) : Entry :=
  { timestamp := now, vendor := pyStrip s.vendor_var,
    notes := pyStrip s.notes_txt, pan := pyStrip s.pan_var,
    gst := pyStrip s.gst_var, version := pyStrip s.version_var,
    language := pyStrip s.lang_var, qty := qn,
    unit_price := priceGet (pyStrip s.version_var),
    amount := qn * priceGet (pyStrip s.version_var),
    pan_img := s.pan_img_path, gst_img := s.gst_img_path }

theorem add_missing (now : String) (s : WinState)
    (hm : requiredMissing s = true) :
    add_update_line now s = (.missingData, s) := by
  unfold requiredMissing at hm
  unfold add_update_line
  simp only [hm, if_true]

theorem add_invalid (now : String) (s : WinState)
    (hm : requiredMissing s = false)
    (hp : pyIntParse (pyStrip s.qty_var) = none) :
    add_update_line now s = (.invalidQty, s) := by
  unfold requiredMissing at hm
  unfold add_update_line
  simp only [hm, Bool.false_eq_true, if_false, hp]

theorem add_ok (now : String) (s : WinState) (qn : Int)
    (hm : requiredMissing s = false)
    (hp : pyIntParse (pyStrip s.qty_var) = some qn) :
    add_update_line now s =
      (.addedThenError (.attributeError "toggle_submit"),
       { s with
         invoice_items := s.invoice_items ++ [mkEntry now s qn],
         total_var :=
           "Total: " ++
             toString (invoice_total (s.invoice_items ++ [mkEntry now s qn])) }) := by
  unfold requiredMissing at hm
  unfold add_update_line
  simp only [hm, Bool.false_eq_true, if_false, hp, refresh_invoice, mkEntry]

/-- Whatever the inputs, `add_update_line` either leaves the ledger
unchanged or appends exactly one entry, built by `mkEntry` from the
stripped form fields. -/
theorem add_items_cases (now : String) (s : WinState) :
    (add_update_line now s).2.invoice_items = s.invoice_items ∨
    ∃ qn, (add_update_line now s).2.invoice_items =
      s.invoice_items ++ [mkEntry now s qn] := by
  by_cases hm : requiredMissing s = true
  · rw [add_missing now s hm]
    exact Or.inl rfl
  · rw [Bool.not_eq_true] at hm
    cases hp : pyIntParse (pyStrip s.qty_var) with
    | none =>
      rw [add_invalid now s hm hp]
      exact Or.inl rfl
    | some qn =>
      right
      exact ⟨qn, by rw [add_ok now s qn hm hp]⟩

theorem clear_form_items (kv : Bool) (s : WinState) :
    (clear_form kv s).1.invoice_items = s.invoice_items := rfl

theorem load_selected_items (idx : Nat) (s : WinState) :
    (load_selected idx s).1.invoice_items = s.invoice_items := by
  unfold load_selected
  split <;> rfl

/-- If every `append_row` call returns normally, the loop hands over one
row per entry, in order. -/
theorem append_rows_ok (sink : Nat → Option String) :
    ∀ (items : List Entry) (i : Nat) (calls : List (List Cell)),
      (∀ j, j < items.length → sink (i + j) = none) →
      append_rows sink items i calls = (calls ++ items.map row_of, none) := by
  intro items
  induction items with
  | nil => intro i calls _; simp [append_rows]
  | cons it rest ih =>
    intro i calls h
    have h0 : sink i = none := by simpa using h 0 (Nat.succ_pos _)
    have hrest : ∀ j, j < rest.length → sink (i + 1 + j) = none := by
      intro j hj
      have := h (j + 1) (by simpa using Nat.succ_lt_succ hj)
      rw [show i + 1 + j = i + (j + 1) from by omega]
      exact this
    simp only [append_rows, h0]
    rw [ih (i + 1) (calls ++ [row_of it]) hrest]
    simp

/-- If the `append_row` calls with offsets `< k` return normally and the
call at offset `k` raises, the loop hands over the rows of the first
`k + 1` entries (the raising call is still issued) and aborts with the
exception. -/
theorem append_rows_fail (sink : Nat → Option String) (reason : String) :
    ∀ (k : Nat) (items : List Entry) (i : Nat) (calls : List (List Cell)),
      k < items.length →
      (∀ j, j < k → sink (i + j) = none) →
      sink (i + k) = some reason →
      append_rows sink items i calls =
        (calls ++ (items.take (k + 1)).map row_of, some reason) := by
  intro k
  induction k with
  | zero =>
    intro items i calls hk h0 hfail
    match items, hk with
    | it :: rest, _ =>
      rw [Nat.add_zero] at hfail
      simp [append_rows, hfail]
  | succ k ih =>
    intro items i calls hk h0 hfail
    match items, hk with
    | it :: rest, hk =>
      have h0' : sink i = none := by simpa using h0 0 (Nat.succ_pos _)
      have hrest : ∀ j, j < k → sink (i + 1 + j) = none := by
        intro j hj
        have := h0 (j + 1) (Nat.succ_lt_succ hj)
        rw [show i + 1 + j = i + (j + 1) from by omega]
        exact this
      have hfail' : sink (i + 1 + k) = some reason := by
        rw [show i + 1 + k = i + (k + 1) from by omega]
        exact hfail
      have hk' : k < rest.length := Nat.lt_of_succ_lt_succ hk
      simp only [append_rows, h0']
      rw [ih rest (i + 1) (calls ++ [row_of it]) hk' hrest hfail']
      simp [List.take_succ_cons]

/-- Whatever the sink does, the rows the loop hands over are the rows of
some prefix of the batch, in order. -/
theorem append_rows_prefix (sink : Nat → Option String) :
    ∀ (items : List Entry) (i : Nat) (calls : List (List Cell)),
      ∃ m, (append_rows sink items i calls).1 =
        calls ++ (items.take m).map row_of := by
  intro items
  induction items with
  | nil => intro i calls; exact ⟨0, by simp [append_rows]⟩
  | cons it rest ih =>
    intro i calls
    cases hs : sink i with
    | some reason =>
      refine ⟨1, ?_⟩
      simp [append_rows, hs]
    | none =>
      obtain ⟨m, hm⟩ := ih (i + 1) (calls ++ [row_of it])
      refine ⟨m + 1, ?_⟩
      simp only [append_rows, hs]
      rw [hm]
      simp [List.take_succ_cons]

/-- `submit_all` on an empty ledger: the info box only, no sink call,
state untouched. -/
theorem submit_all_empty (ws : Bool) (sink : Nat → Option String)
    (s : WinState) (h : s.invoice_items = []) :
    submit_all ws sink s = (.emptyInfo, s, []) := by
  unfold submit_all
  rw [h]
  rfl

/-- `submit_all` on a non-empty ledger when every `append_row` call
returns normally: all rows are handed over in order, the ledger is
emptied and the total label reset, but the outcome still shows an error
box — the `except` catches the `AttributeError` that `refresh_invoice`
raises on `toggle_submit`, after the "Success" info box was shown. -/
theorem submit_all_ok (sink : Nat → Option String) (s : WinState)
    (hne : s.invoice_items ≠ [])
    (hok : ∀ j, j < s.invoice_items.length → sink j = none) :
    submit_all true sink s =
      (.successThenError (.attributeError "toggle_submit"),
       { s with invoice_items := [], total_var := "Total: 0" },
       s.invoice_items.map row_of) := by
  have he : s.invoice_items.isEmpty = false := by
    simpa [List.isEmpty_iff] using hne
  have hok0 : ∀ j, j < s.invoice_items.length → sink (0 + j) = none := by
    simpa using hok
  unfold submit_all
  rw [he]
  simp only [Bool.false_eq_true, if_false, Bool.not_true]
  rw [append_rows_ok sink s.invoice_items 0 [] hok0]
  simp only [refresh_invoice, invoice_total, List.foldl_nil]
  rfl

/-- `submit_all` when the call at offset `k` raises and the earlier ones
return normally: the loop stops after the raising call, the error box
shows only the exception text, and `invoice_items` is left exactly as it
was (the source clears it only after a fully successful loop). -/
theorem submit_all_fail (sink : Nat → Option String) (s : WinState)
    (k : Nat) (reason : String)
    (hk : k < s.invoice_items.length)
    (hok : ∀ j, j < k → sink j = none)
    (hfail : sink k = some reason) :
    submit_all true sink s =
      (.submitError reason, s, (s.invoice_items.take (k + 1)).map row_of) := by
  have hne : s.invoice_items ≠ [] := by
    intro h
    rw [h] at hk
    exact absurd hk (by simp)
  have he : s.invoice_items.isEmpty = false := by
    simpa [List.isEmpty_iff] using hne
  have hok0 : ∀ j, j < k → sink (0 + j) = none := by simpa using hok
  have hfail0 : sink (0 + k) = some reason := by simpa using hfail
  unfold submit_all
  rw [he]
  simp only [Bool.false_eq_true, if_false, Bool.not_true]
  rw [append_rows_fail sink reason k s.invoice_items 0 [] hk hok0 hfail0]
  rfl

theorem submit_all_items_cases (ws : Bool) (sink : Nat → Option String)
    (s : WinState) :
    (submit_all ws sink s).2.1.invoice_items = s.invoice_items ∨
    (submit_all ws sink s).2.1.invoice_items = [] := by
  unfold submit_all
  split
  · exact Or.inl rfl
  · split
    · exact Or.inl rfl
    · split
      · exact Or.inl rfl
      · exact Or.inr rfl

/-- One user-visible transition of a `VendorAppWindow`: editing the form
widgets (`typing`, which also covers the path updates of
`browse_image`), or firing one of the event handlers. -/
inductive Step : WinState → WinState → Prop where
  | typing (s : WinState)
      (vendor notes pan gst version lang qty pimgv gimgv pimgp gimgp : String) :
      Step s { s with
               vendor_var := vendor, notes_txt := notes, pan_var := pan,
               gst_var := gst, version_var := version, lang_var := lang,
               qty_var := qty, pan_img_var := pimgv, gst_img_var := gimgv,
               pan_img_path := pimgp, gst_img_path := gimgp }
  | add (now : String) (s : WinState) : Step s (add_update_line now s).2
  | clear (kv : Bool) (s : WinState) : Step s (clear_form kv s).1
  | load (idx : Nat) (s : WinState) : Step s (load_selected idx s).1
  | submit (ws : Bool) (sink : Nat → Option String) (s : WinState) :
      Step s (submit_all ws sink s).2.1

/-- Window states reachable from the freshly created window. -/
def Reachable (s : WinState) : Prop :=
  Relation.ReflTransGen Step initState s

/-- The per-entry invariant: the amount is the quantity times the unit
price, and the unit price is the one `PRICE_MAP.get(version, 0)`
resolves for the entry's own version label. -/
def EntryOk (e : Entry) : Prop :=
  e.amount = e.qty * e.unit_price ∧ e.unit_price = priceGet e.version

theorem mkEntry_ok (now : String) (s : WinState) (qn : Int) :
    EntryOk (mkEntry now s qn) :=
  ⟨rfl, rfl⟩

theorem step_preserves_entryOk (a b : WinState) (hs : Step a b)
    (ih : ∀ e ∈ a.invoice_items, EntryOk e) :
    ∀ e ∈ b.invoice_items, EntryOk e := by
  cases hs with
  | typing vendor notes pan gst version lang qty pimgv gimgv pimgp gimgp =>
    exact ih
  | add now =>
    intro e he
    rcases add_items_cases now a with h | ⟨qn, h⟩
    · rw [h] at he
      exact ih e he
    · rw [h] at he
      rcases List.mem_append.mp he with h1 | h1
      · exact ih e h1
      · have := List.mem_singleton.mp h1
        subst this
        exact mkEntry_ok now a qn
  | clear kv =>
    intro e he
    rw [clear_form_items] at he
    exact ih e he
  | load idx =>
    intro e he
    rw [load_selected_items] at he
    exact ih e he
  | submit ws sink =>
    intro e he
    rcases submit_all_items_cases ws sink a with h | h
    · rw [h] at he
      exact ih e he
    · rw [h] at he
      cases he

/-- Every entry of every reachable window state satisfies `EntryOk`:
entries enter the ledger only through `add_update_line`, fully built,
and no operation ever rewrites an entry in place. -/
theorem reachable_entryOk (s : WinState) (h : Reachable s) :
    ∀ e ∈ s.invoice_items, EntryOk e := by
  induction h with
  | refl => intro e he; cases he
  | tail _ hbc ih => exact step_preserves_entryOk _ _ hbc ih

theorem isWhitespace_of_isDigit (c : Char) (h : c.isDigit = true) :
    c.isWhitespace = false := by
  simp only [Char.isDigit, Bool.and_eq_true, decide_eq_true_eq] at h
  obtain ⟨h1, h2⟩ := h
  have e1 : c ≠ ' ' := by rintro rfl; exact absurd h1 (by decide)
  have e2 : c ≠ '\t' := by rintro rfl; exact absurd h1 (by decide)
  have e3 : c ≠ '\x0d' := by rintro rfl; exact absurd h1 (by decide)
  have e4 : c ≠ '\n' := by rintro rfl; exact absurd h1 (by decide)
  simp [Char.isWhitespace, e1, e2, e3, e4]

theorem dropWhile_eq_self_of (p : Char → Bool) (l : List Char)
    (h : ∀ c ∈ l, p c = false) : l.dropWhile p = l := by
  cases l with
  | nil => rfl
  | cons a t => simp [List.dropWhile_cons, h a (List.mem_cons_self a t)]

/-- Stripping a string of digits changes nothing. -/
theorem pyStrip_digits (ds : List Char) (h : ds.all Char.isDigit = true) :
    pyStrip ⟨ds⟩ = ⟨ds⟩ := by
  simp only [List.all_eq_true, decide_eq_true_eq] at h
  have hall : ∀ c ∈ ds, Char.isWhitespace c = false := fun c hc =>
    isWhitespace_of_isDigit c (h c hc)
  have hall2 : ∀ c ∈ ds.reverse, Char.isWhitespace c = false := fun c hc =>
    hall c (List.mem_reverse.mp hc)
  unfold pyStrip
  have h0 : (⟨ds⟩ : String).toList = ds := rfl
  rw [h0, dropWhile_eq_self_of _ _ hall, dropWhile_eq_self_of _ _ hall2,
    List.reverse_reverse]

/-- Python's `int` on a non-empty all-digit string: the digit value,
hence never negative — but possibly zero. -/
theorem pyIntParse_digits (ds : List Char) (hne : ds ≠ [])
    (h : ds.all Char.isDigit = true) :
    pyIntParse ⟨ds⟩ = some (digitsVal ds) := by
  cases ds with
  | nil => exact absurd rfl hne
  | cons c rest =>
    have hc : c.isDigit = true := by
      have := List.all_eq_true.mp h c (List.mem_cons_self c rest)
      simpa using this
    have hm : ¬ (c = '-') := by
      intro hcc
      rw [hcc] at hc
      exact absurd hc (by decide)
    have hp : ¬ (c = '+') := by
      intro hcc
      rw [hcc] at hc
      exact absurd hc (by decide)
    unfold pyIntParse
    rw [pyStrip_digits _ h]
    simp [String.toList, hm, hp, h]

/-- The entry the Acme/ISEE/3 scenario produces (price 300, amount 900). -/
def e900 : Entry := mkEntry "t1" acmeState 3

/-- Form state for an Actilearn 1.0 line with quantity 1 (price 250). -/
def actiState : WinState :=
  { initState with
    vendor_var := "Acme", pan_var := "PAN1", gst_var := "GST1",
    version_var := "Actilearn 1.0", lang_var := "Hindi", qty_var := "1" }

/-- An entry of amount 250. -/
def e250 : Entry := mkEntry "t2" actiState 1

/-- A window holding one invoice line. -/
def oneState : WinState := { initState with invoice_items := [e900] }

/-- A window holding two invoice lines with amounts 900 and 250. -/
def twoState : WinState := { initState with invoice_items := [e900, e250] }

/-- Sink double whose `append_row` calls all return normally. -/
def sinkOk : Nat → Option String := fun _ => none

/-- Sink double whose first `append_row` call raises. -/
def sinkBoom0 : Nat → Option String := fun i => if i = 0 then some "boom" else none

/-- Sink double whose second `append_row` call raises. -/
def sinkBoom1 : Nat → Option String := fun i => if i = 1 then some "boom" else none

/-- C1 (amended).  If `append_row` raises at offset `k` (the 1-based
`k + 1`-st item) of the batch, the raising call is the last one issued,
`submit_all` returns with the ledger still holding exactly the original
items in their original order (the source iterates over the live list
and clears it only after full success, so no restore is needed), and the
error reports only the exception text: no `completedCount` is included
in the outcome. -/
theorem c1_rollback_corrected (sink : Nat → Option String) (s : WinState)
    (k : Nat) (reason : String)
    (hk : k < s.invoice_items.length)
    (hok : ∀ j, j < k → sink j = none)
    (hfail : sink k = some reason) :
    submit_all true sink s =
      (.submitError reason, s, (s.invoice_items.take (k + 1)).map row_of) ∧
    reported_completed_count (submit_all true sink s).1 = none := by
  have h := submit_all_fail sink s k reason hk hok hfail
  exact ⟨h, by rw [h]; rfl⟩

/-- Witness for C1: a two-item batch whose second `append_row` raises. -/
theorem c1_rollback_witness :
    submit_all true sinkBoom1 twoState =
      (.submitError "boom", twoState,
       (twoState.invoice_items.take 2).map row_of) ∧
    reported_completed_count (submit_all true sinkBoom1 twoState).1 = none :=
  c1_rollback_corrected sinkBoom1 twoState 1 "boom" (by decide)
    (fun j hj => by
      have hj0 : j = 0 := by omega
      subst hj0
      rfl)
    rfl

/-- C1 counterexample.  With the sink raising on the first item of a
two-item batch (k = 1, so the claim demands `completedCount = 0`), the
returned error is the bare exception text and reports no
`completedCount` at all. -/
theorem c1_completed_count_cex :
    (submit_all true sinkBoom0 twoState).1 = .submitError "boom" ∧
    ¬ reported_completed_count (submit_all true sinkBoom0 twoState).1 = some 0 := by
  decide

/-- The scenario form with a version label absent from `PRICE_MAP`. -/
def mysteryState : WinState :=
  { acmeState with version_var := "Mystery Version" }

/-- C2 (amended).  For a `productVersion` absent from the price map the
lookup default is 0 — not 200 — so the built line has `unit_price = 0`
and `amount = 0`; known versions resolve to their configured price,
e.g. 300 for "ISEE". -/
theorem c2_default_price_corrected :
    (∀ v, PRICE_MAP.lookup v = none → priceGet v = 0) ∧
    (∀ now s qn, requiredMissing s = false →
      pyIntParse (pyStrip s.qty_var) = some qn →
      PRICE_MAP.lookup (pyStrip s.version_var) = none →
      (add_update_line now s).2.invoice_items =
        s.invoice_items ++ [mkEntry now s qn] ∧
      (mkEntry now s qn).unit_price = 0 ∧
      (mkEntry now s qn).amount = 0) ∧
    priceGet "ISEE" = 300 := by
  refine ⟨?_, ?_, by decide⟩
  · intro v h
    unfold priceGet
    rw [h]
    rfl
  · intro now s qn hm hp hv
    have hpz : priceGet (pyStrip s.version_var) = 0 := by
      unfold priceGet
      rw [hv]
      rfl
    refine ⟨by rw [add_ok now s qn hm hp], hpz, ?_⟩
    show qn * priceGet (pyStrip s.version_var) = 0
    rw [hpz, mul_zero]

/-- Witness for C2: the unknown version "Mystery Version" with
quantity 3 builds a line priced 0. -/
theorem c2_default_price_witness :
    (add_update_line "t" mysteryState).2.invoice_items =
      mysteryState.invoice_items ++ [mkEntry "t" mysteryState 3] ∧
    (mkEntry "t" mysteryState 3).unit_price = 0 ∧
    (mkEntry "t" mysteryState 3).amount = 0 :=
  c2_default_price_corrected.2.1 "t" mysteryState 3 (by decide) (by decide)
    (by decide)

/-- C2 counterexample.  The claim says the fallback price is 200; the
source's call-site default is 0, as the unknown label "Mystery Version"
shows — the produced line's `unit_price` is 0, not 200. -/
theorem c2_default_price_cex :
    priceGet "Mystery Version" = 0 ∧
    ¬ priceGet "Mystery Version" = 200 ∧
    (add_update_line "t" mysteryState).2.invoice_items.map Entry.unit_price =
      [0] := by
  decide

/-- The state after selecting line 0 of `oneState` and retyping the
quantity as "5" — the "edit existing line" workflow. -/
def c3Edited : WinState := { (load_selected 0 oneState).1 with qty_var := "5" }

/-- C3 evaluation.  The edit workflow (select line 0, change the
quantity, press "Add / Update Line") appends a second entry instead of
replacing the first: the ledger grows to length 2 with quantities
[3, 5], and `add_update_line` never reads `selected_index` (the result
items are the same with the marker cleared), because the update path was
never implemented. -/
theorem c3_edit_appends_eval :
    (load_selected 0 oneState).1.selected_index = some 0 ∧
    (add_update_line "t3" c3Edited).2.invoice_items.length = 2 ∧
    (add_update_line "t3" c3Edited).2.invoice_items.map Entry.qty = [3, 5] ∧
    (add_update_line "t3" { c3Edited with selected_index := none }).2.invoice_items =
      (add_update_line "t3" c3Edited).2.invoice_items := by
  decide

/-- The scenario form with the quantity text "abc". -/
def abcState : WinState := { acmeState with qty_var := "abc" }

/-- The scenario form with the quantity text "0". -/
def zeroState : WinState := { acmeState with qty_var := "0" }

/-- The scenario form with the quantity text "-3". -/
def negState : WinState := { acmeState with qty_var := "-3" }

/-- A form state with the required vendor field blank. -/
def missingState : WinState := { acmeState with vendor_var := "" }

/-- C5 (amended).  Validation is fail-fast in source order: a blank
required field yields the missing-data warning first; otherwise a
quantity text that Python's `int` cannot parse yields the
invalid-quantity warning (e.g. "abc"); the ledger is untouched on either
failure.  When `int` succeeds the constructed entry's quantity is the
parsed value: for all-digit input (what the entry widget's keystroke
filter admits) that value is non-negative, but zero is accepted and a
signed text like "-3" is parsed as a negative quantity rather than
rejected. -/
theorem c5_validation_corrected :
    (∀ now s, requiredMissing s = true →
      add_update_line now s = (.missingData, s)) ∧
    (∀ now s, requiredMissing s = false →
      pyIntParse (pyStrip s.qty_var) = none →
      add_update_line now s = (.invalidQty, s)) ∧
    (∀ now s qn, requiredMissing s = false →
      pyIntParse (pyStrip s.qty_var) = some qn →
      (add_update_line now s).2.invoice_items =
        s.invoice_items ++ [mkEntry now s qn] ∧ (mkEntry now s qn).qty = qn) ∧
    (∀ ds : List Char, ds ≠ [] → ds.all Char.isDigit = true →
      pyIntParse ⟨ds⟩ = some (digitsVal ds) ∧ 0 ≤ (digitsVal ds : Int)) := by
  refine ⟨add_missing, add_invalid, ?_, ?_⟩
  · intro now s qn hm hp
    exact ⟨by rw [add_ok now s qn hm hp], rfl⟩
  · intro ds hne h
    exact ⟨pyIntParse_digits ds hne h, by omega⟩

/-- Witness for C5: a blank vendor is rejected as missing data, "abc" as
an invalid quantity (both leaving the state untouched), while "0" is
accepted and appends a zero-quantity entry. -/
theorem c5_validation_witness :
    add_update_line "t" missingState = (.missingData, missingState) ∧
    add_update_line "t" abcState = (.invalidQty, abcState) ∧
    (add_update_line "t" zeroState).2.invoice_items =
      zeroState.invoice_items ++ [mkEntry "t" zeroState 0] ∧
    pyIntParse (String.mk ['0']) = some (digitsVal ['0']) :=
  ⟨c5_validation_corrected.1 "t" missingState (by decide),
   c5_validation_corrected.2.1 "t" abcState (by decide) (by decide),
   (c5_validation_corrected.2.2.1 "t" zeroState 0 (by decide) (by decide)).1,
   (c5_validation_corrected.2.2.2 ['0'] (by decide) (by decide)).1⟩

/-- C5 counterexample.  The quantity text "-3" does not parse as a
non-negative integer, yet the handler does not return the
invalid-quantity warning: it appends an entry with quantity -3 (so the
ledger changes and the constructed quantity is not strictly positive). -/
theorem c5_negative_qty_cex :
    (add_update_line "t" negState).1 =
      .addedThenError (.attributeError "toggle_submit") ∧
    ¬ (add_update_line "t" negState).1 = .invalidQty ∧
    (add_update_line "t" negState).2.invoice_items.map Entry.qty = [-3] := by
  decide

theorem foldl_add_amount (l : List Entry) :
    ∀ t : Int, l.foldl (fun a it => a + it.amount) t =
      t + (l.map Entry.amount).sum := by
  induction l with
  | nil => intro t; simp
  | cons it rest ih =>
    intro t
    simp only [List.foldl_cons, List.map_cons, List.sum_cons]
    rw [ih]
    ring

/-- C4.  Every entry in every reachable window state satisfies
`amount = qty * unit_price` with `unit_price` the price resolved for its
own version label — entries are fully built before being appended and no
operation mutates them in place; and the Acme/ISEE/quantity-3 scenario
builds exactly one line with unit price 300 and amount 900. -/
theorem c4_amount_invariant :
    (∀ s, Reachable s → ∀ e ∈ s.invoice_items,
      e.amount = e.qty * e.unit_price ∧ e.unit_price = priceGet e.version) ∧
    ((add_update_line "t1" acmeState).2.invoice_items.map
      (fun e => (e.unit_price, e.amount)) = [(300, 900)]) := by
  exact ⟨reachable_entryOk, by decide⟩

/-- The window after typing the Acme scenario fields and pressing
"Add / Update Line" once. -/
def acmeAdded : WinState := (add_update_line "t1" acmeState).2

/-- Witness for C4: the scenario entry inside a concretely reached
state. -/
theorem c4_amount_invariant_witness :
    e900.amount = e900.qty * e900.unit_price ∧
    e900.unit_price = priceGet e900.version := by
  have h1 : Step initState acmeState :=
    Step.typing initState "Acme" "" "PAN1" "GST1" "ISEE" "English" "3" "" "" "" ""
  have h2 : Step acmeState acmeAdded := Step.add "t1" acmeState
  have hr : Reachable acmeAdded :=
    Relation.ReflTransGen.tail
      (Relation.ReflTransGen.tail Relation.ReflTransGen.refl h1) h2
  exact c4_amount_invariant.1 acmeAdded hr e900 (by decide)

/-- C6.  The displayed total is recomputed from the current ledger on
every refresh, so it equals the sum of the amounts of the items after
any sequence of operations; it is 0 for an empty ledger, 1150 for
amounts 900 and 250, and 0 again after a fully successful submission
empties the ledger. -/
theorem c6_total_sum :
    (∀ items : List Entry, invoice_total items = (items.map Entry.amount).sum) ∧
    invoice_total [] = 0 ∧
    (∀ s, (refresh_invoice s).1.total_var =
      "Total: " ++ toString (invoice_total s.invoice_items)) ∧
    (∀ a b : Entry, a.amount = 900 → b.amount = 250 →
      invoice_total [a, b] = 1150) ∧
    (∀ sink s, s.invoice_items ≠ [] →
      (∀ j, j < s.invoice_items.length → sink j = none) →
      invoice_total (submit_all true sink s).2.1.invoice_items = 0) := by
  refine ⟨fun items => by rw [invoice_total, foldl_add_amount, zero_add],
    rfl, fun s => rfl, ?_, ?_⟩
  · intro a b ha hb
    show 0 + a.amount + b.amount = 1150
    rw [ha, hb]
    decide
  · intro sink s hne hok
    rw [submit_all_ok sink s hne hok]
    rfl

/-- Witness for C6: the two-line scenario totals 1150, and the total is
0 after a fully successful submission. -/
theorem c6_total_sum_witness :
    invoice_total [e900, e250] = 1150 ∧
    invoice_total (submit_all true sinkOk twoState).2.1.invoice_items = 0 :=
  ⟨c6_total_sum.2.2.2.1 e900 e250 (by decide) (by decide),
   c6_total_sum.2.2.2.2 sinkOk twoState (by decide) (fun j hj => rfl)⟩

/-- C7.  Every row handed to the sink's `append_row` lists exactly the
twelve fields in source order — timestamp, vendor, notes, PAN, GST,
version, language, quantity, unit price, amount, and the two attachment
basenames — and `submit_all` only ever hands over the rows of a prefix
of the ledger, in insertion order. -/
theorem c7_row_order :
    (∀ it : Entry, row_of it =
      [.str it.timestamp, .str it.vendor, .str it.notes, .str it.pan,
       .str it.gst, .str it.version, .str it.language, .int it.qty,
       .int it.unit_price, .int it.amount, .str (basename it.pan_img),
       .str (basename it.gst_img)] ∧ (row_of it).length = 12) ∧
    (∀ sink s, ∃ m, (submit_all true sink s).2.2 =
      (s.invoice_items.take m).map row_of) := by
  refine ⟨fun it => ⟨rfl, rfl⟩, ?_⟩
  intro sink s
  by_cases he : s.invoice_items.isEmpty = true
  · refine ⟨0, ?_⟩
    unfold submit_all
    rw [he]
    simp
  · obtain ⟨m, hm⟩ := append_rows_prefix sink s.invoice_items 0 []
    refine ⟨m, ?_⟩
    have he' : s.invoice_items.isEmpty = false := by
      rwa [Bool.not_eq_true] at he
    unfold submit_all
    rw [he']
    simp only [Bool.false_eq_true, if_false, Bool.not_true]
    rcases hres : append_rows sink s.invoice_items 0 [] with ⟨calls, exc⟩
    rw [hres] at hm
    cases exc with
    | some reason => simpa using hm
    | none =>
      simp only [refresh_invoice]
      simpa using hm

/-- C8 (amended).  For a non-empty ledger whose `append_row` calls all
return normally, `submit_all` hands the sink exactly one row per item in
insertion order, shows the success info box (which carries no count or
total), empties the ledger and resets the displayed total to 0 — but it
then displays a "Submit Error" dialog all the same, because
`refresh_invoice` runs inside the `try` and its call to the undefined
`toggle_submit` raises; no structured report with a count is returned. -/
theorem c8_success_corrected (sink : Nat → Option String) (s : WinState)
    (hne : s.invoice_items ≠ [])
    (hok : ∀ j, j < s.invoice_items.length → sink j = none) :
    submit_all true sink s =
      (.successThenError (.attributeError "toggle_submit"),
       { s with invoice_items := [], total_var := "Total: 0" },
       s.invoice_items.map row_of) ∧
    shows_error_box (submit_all true sink s).1 = true ∧
    reported_completed_count (submit_all true sink s).1 = none := by
  have h := submit_all_ok sink s hne hok
  exact ⟨h, by rw [h]; rfl, by rw [h]; rfl⟩

/-- Witness for C8: the one-line ledger with an always-successful
sink. -/
theorem c8_success_witness :
    submit_all true sinkOk oneState =
      (.successThenError (.attributeError "toggle_submit"),
       { oneState with invoice_items := [], total_var := "Total: 0" },
       oneState.invoice_items.map row_of) ∧
    shows_error_box (submit_all true sinkOk oneState).1 = true ∧
    reported_completed_count (submit_all true sinkOk oneState).1 = none :=
  c8_success_corrected sinkOk oneState (by decide) (fun j hj => rfl)

/-- C8 counterexample.  Submitting one line through an always-successful
sink does not return a non-error report with the count: the outcome
displays an error dialog (the caught `toggle_submit` `AttributeError`)
right after the success box, and carries no count. -/
theorem c8_success_cex :
    (submit_all true sinkOk oneState).1 =
      .successThenError (.attributeError "toggle_submit") ∧
    shows_error_box (submit_all true sinkOk oneState).1 = true := by
  decide

/-- C9.  Submitting an empty ledger shows only the "No invoice lines to
submit" info box (not an error), issues no `append_row` call, and leaves
the state untouched. -/
theorem c9_empty_submit (ws : Bool) (sink : Nat → Option String)
    (s : WinState) (h : s.invoice_items = []) :
    submit_all ws sink s = (.emptyInfo, s, []) ∧
    shows_error_box (submit_all ws sink s).1 = false := by
  have he := submit_all_empty ws sink s h
  exact ⟨he, by rw [he]; rfl⟩

/-- Witness for C9: the freshly created window. -/
theorem c9_empty_submit_witness :
    submit_all true sinkOk initState = (.emptyInfo, initState, []) ∧
    shows_error_box (submit_all true sinkOk initState).1 = false :=
  c9_empty_submit true sinkOk initState rfl

/-- C10.  `status_var` is never created, so `clear_form` always raises
`AttributeError` at its final `status_var.set`, as does `load_selected`
for any selected line; and a successful add raises an uncaught
`AttributeError` only after the entry is already appended and the
displayed total updated, so the state change survives the error. -/
theorem c10_attribute_error :
    (∀ kv s, (clear_form kv s).2 = some (.attributeError "status_var")) ∧
    (∀ idx s, idx < s.invoice_items.length →
      (load_selected idx s).2 = some (.attributeError "status_var")) ∧
    (∀ now s qn, requiredMissing s = false →
      pyIntParse (pyStrip s.qty_var) = some qn →
      (add_update_line now s).1 =
        .addedThenError (.attributeError "toggle_submit") ∧
      (add_update_line now s).2.invoice_items =
        s.invoice_items ++ [mkEntry now s qn] ∧
      (add_update_line now s).2.total_var =
        "Total: " ++ toString (invoice_total
          (s.invoice_items ++ [mkEntry now s qn]))) := by
  refine ⟨fun kv s => rfl, ?_, ?_⟩
  · intro idx s h
    unfold load_selected
    rw [dif_pos h]
  · intro now s qn hm hp
    have h := add_ok now s qn hm hp
    exact ⟨by rw [h], by rw [h], by rw [h]⟩

/-- Witness for C10: the three failing interactions on concrete
states. -/
theorem c10_attribute_error_witness :
    (clear_form true acmeState).2 = some (.attributeError "status_var") ∧
    (load_selected 0 oneState).2 = some (.attributeError "status_var") ∧
    (add_update_line "t1" acmeState).1 =
      .addedThenError (.attributeError "toggle_submit") :=
  ⟨c10_attribute_error.1 true acmeState,
   c10_attribute_error.2.1 0 oneState (by decide),
   (c10_attribute_error.2.2 "t1" acmeState 3 (by decide) (by decide)).1⟩
